import Mathlib

/-!
Shallow embedding of the sg-admin-backend Express application
(source: src/unnamed/part_000) for verifying the claims of its
specification.

The application is a single-file Express server over a MySQL pool,
with bcrypt password hashing and JWT bearer tokens.  Each HTTP
endpoint is embedded as a pure Lean function from the database state
(and, where relevant, the physical file store and the clock) to the
new state together with the HTTP response that the handler sends.
External collaborators (bcrypt, the jsonwebtoken library, the
filesystem) are modelled by small deterministic abstractions that
preserve exactly the behaviour the handlers depend on.
-/

namespace SgAdmin

/-- Model of the `bcrypt` library's `hash`.  Real bcrypt is salted and
non-deterministic; the handlers only ever rely on `compare p (hash p) = true`
and `compare p' (hash p) = false` for `p' ≠ p`, which this injective
deterministic abstraction preserves. -/
def bcryptHash (password : String) : String :=
  "bcrypt$" ++ password

/-- Model of `bcrypt.compare`: true iff the candidate password rehashes to
the stored hash. -/
def bcryptCompare (candidate stored : String) : Bool :=
  stored == bcryptHash candidate

/-- Payload-plus-signature content of a token produced by `jwt.sign`:
the `{ userId }` claim, the signing secret, the issue time and the
lifetime in seconds (`expiresIn`).  HS256 signing is deterministic, so a
structured value faithfully stands for the serialized token string. -/
structure Jwt where
  userId : Nat
  secret : String
  iat : Nat
  expSecs : Nat
deriving Repr, DecidableEq

/-- Model of `jwt.sign(payload, secret, { expiresIn })`. -/
def jwtSign (userId : Nat) (secret : String) (iat expSecs : Nat) : Jwt :=
  ⟨userId, secret, iat, expSecs⟩

/-- A bearer-token string presented by a caller: either a well-formed
JWT or a string that is not a JWT at all (malformed). -/
inductive Token where
  | jwt (t : Jwt)
  | malformed (s : String)
deriving Repr, DecidableEq

/-- Model of `jwt.verify(token, secret)` evaluated at time `now`:
returns the `userId` claim when the signature matches the secret and
the token is unexpired; `none` means the library throws (malformed
token, wrong signature, or expired). -/
def jwtVerify (tok : Token) (secret : String) (now : Nat) : Option Nat :=
  match tok with
  | Token.malformed _ => none
  | Token.jwt t =>
      if t.secret = secret ∧ now < t.iat + t.expSecs then some t.userId else none

/-- A row of the `users` table. -/
structure UserRow where
  id : Nat
  email : String
  password : String
deriving Repr, DecidableEq

/-- A row of the `files` table. -/
structure FileRow where
  id : Nat
  filename : String
  path : String
deriving Repr, DecidableEq

/-- A row of the `password_reset_tokens` table. -/
structure ResetTokenRow where
  id : Nat
  userId : Nat
  token : Token
  expiresAt : Nat
  used : Bool
deriving Repr, DecidableEq

/-- A row of the `whitelist_emails` table. -/
structure WhitelistRow where
  id : Nat
  email : String
  createdAt : Nat
deriving Repr, DecidableEq

/-- The MySQL database state: the four tables created by `initDB`,
plus the AUTO_INCREMENT counters. -/
structure DB where
  users : List UserRow
  files : List FileRow
  resetTokens : List ResetTokenRow
  whitelist : List WhitelistRow
  nextUserId : Nat
  nextFileId : Nat
  nextTokenId : Nat
  nextWhitelistId : Nat
deriving Repr, DecidableEq

/-- Model of `fs.unlink(path)`: removes the path from the physical
store, or throws (here: `Except.error`) when the blob is absent. -/
def fsUnlink (fs : List String) (path : String) : Except String (List String) :=
  if fs.contains path then Except.ok (fs.filter (fun p => p ≠ path))
  else Except.error "ENOENT"

/-- The `authenticate` middleware (source lines 63-74): absent header →
401 "Access denied"; `jwt.verify` throws → 400 "Invalid token";
otherwise `req.userId := decoded.userId`. -/
def authenticate (authHeader : Option Token) (secret : String) (now : Nat) :
    Except (Nat × String) Nat :=
  match authHeader with
  | none => Except.error (401, "Access denied")
  | some tok =>
      match jwtVerify tok secret now with
      | some uid => Except.ok uid
      | none => Except.error (400, "Invalid token")

/-- Response of an endpoint that returns only a status and a message,
together with the database state after the handler. -/
structure EndpointResult where
  db : DB
  status : Nat
  message : String
deriving Repr, DecidableEq

/-- `POST /register` (source lines 77-89): hash the password and
INSERT.  The `users.email` UNIQUE constraint makes the INSERT throw on
a duplicate email, which the catch-all turns into a 500 with the
driver's duplicate-entry message; no row is written in that case. -/
def registerUser (db : DB) (email password : String) : EndpointResult :=
  if db.users.any (fun u => u.email == email) then
    ⟨db, 500, "Duplicate entry for key users.email"⟩
  else
    ⟨{ db with
        users := db.users ++ [⟨db.nextUserId, email, bcryptHash password⟩],
        nextUserId := db.nextUserId + 1 },
      201, "User created"⟩

/-- Response of `POST /login`: the state is never changed, so only the
status, message and issued token are recorded. -/
structure LoginResult where
  status : Nat
  message : String
  token : Option Token
deriving Repr, DecidableEq

/-- `POST /login` (source lines 91-118): whitelist membership is
checked first (403 with a whitelist-specific message); then the user
row is looked up and the password compared (single generic 401 for
both absence and mismatch); on success a 1-hour JWT is issued. -/
def login (db : DB) (email password secret : String) (now : Nat) : LoginResult :=
  if db.whitelist.any (fun w => w.email == email) then
    match db.users.find? (fun u => u.email == email) with
    | none => ⟨401, "Invalid credentials", none⟩
    | some u =>
        if bcryptCompare password u.password then
          ⟨200, "", some (Token.jwt (jwtSign u.id secret now 3600))⟩
        else
          ⟨401, "Invalid credentials", none⟩
  else
    ⟨403, "Access denied. Your email is not whitelisted.", none⟩

/-- Response of `POST /upload`. -/
structure UploadResult where
  db : DB
  status : Nat
  message : String
  fileId : Option Nat
deriving Repr, DecidableEq

/-- `POST /upload` (source lines 120-147): behind `authenticate`; 400
when no file is attached; a prior SELECT rejects an already-present
filename with 400 "File with this name already exists"; otherwise the
record is INSERTed and its id returned. -/
def uploadFile (db : DB) (authHeader : Option Token) (secret : String) (now : Nat)
    (file : Option (String × String)) : UploadResult :=
  match authenticate authHeader secret now with
  | Except.error (s, m) => ⟨db, s, m, none⟩
  | Except.ok _ =>
      match file with
      | none => ⟨db, 400, "No file uploaded", none⟩
      | some (origname, path) =>
          if db.files.any (fun f => f.filename == origname) then
            ⟨db, 400, "File with this name already exists", none⟩
          else
            ⟨{ db with
                files := db.files ++ [⟨db.nextFileId, origname, path⟩],
                nextFileId := db.nextFileId + 1 },
              200, "File uploaded successfully", some db.nextFileId⟩

/-- The `details` object of a successful `DELETE /files/:id` response. -/
structure DeleteFileDetails where
  dbRecordDeleted : Bool
  physicalFileDeleted : Bool
  deletedId : Nat
deriving Repr, DecidableEq

/-- Full outcome of `DELETE /files/:id`: database state, physical file
store, status, and the response details (present on the 200 path). -/
structure DeleteFileOutcome where
  db : DB
  fs : List String
  status : Nat
  details : Option DeleteFileDetails
deriving Repr, DecidableEq

/-- `DELETE /files/:id` (source lines 158-203): looks the record up
(404 when absent); attempts `fs.unlink` on its path, catching and
ignoring any failure; unconditionally DELETEs the record; responds 200
with `dbRecordDeleted := affectedRows === 1` and — verbatim from the
source — `physicalFileDeleted: true, // Assuming best case`, a
hardcoded `true` independent of whether the unlink succeeded. -/
def deleteFile (db : DB) (fs : List String) (fileId : Nat) : DeleteFileOutcome :=
  match db.files.find? (fun f => f.id == fileId) with
  | none => ⟨db, fs, 404, none⟩
  | some f =>
      let fs' := match fsUnlink fs f.path with
        | Except.ok fs2 => fs2
        | Except.error _ => fs
      let affected := (db.files.filter (fun g => g.id == fileId)).length
      let db' := { db with files := db.files.filter (fun g => g.id != fileId) }
      ⟨db', fs', 200, some ⟨affected == 1, true, fileId⟩⟩

/-- `DELETE /user` transaction body (source lines 206-250), entered
with `req.userId` already set by `authenticate`.  The handler runs one
MySQL transaction on a dedicated connection: SELECT the user row and
bcrypt-compare (rollback + 401 on absence or mismatch); DELETE the
user's reset tokens; DELETE the user row; rollback + 404 when that
DELETE affects zero rows; otherwise commit.

Under InnoDB REPEATABLE READ the SELECT reads the transaction's
snapshot while the DELETEs act on the latest committed data, so a
concurrent committed transaction can change the rows between the read
and the writes; `interfere` models that concurrently committed change
(`id` for an isolated run).  On rollback the unit's own deletions are
undone, so the resulting committed state is `interfere db`. -/
def deleteAccount (db : DB) (interfere : DB → DB) (userId : Nat) (password : String) :
    EndpointResult :=
  match db.users.find? (fun u => u.id == userId) with
  | none => ⟨interfere db, 401, "Invalid password"⟩
  | some u =>
      if bcryptCompare password u.password then
        let dbCur := interfere db
        let db1 := { dbCur with
          resetTokens := dbCur.resetTokens.filter (fun t => t.userId != userId) }
        let affected := (dbCur.users.filter (fun v => v.id == userId)).length
        let db2 := { db1 with users := db1.users.filter (fun v => v.id != userId) }
        if affected == 0 then ⟨interfere db, 404, "User not found"⟩
        else ⟨db2, 200, "User account deleted successfully"⟩
      else ⟨interfere db, 401, "Invalid password"⟩

/-- Response of `POST /request-password-reset`. -/
structure ResetRequestResult where
  db : DB
  status : Nat
  token : Option Token
deriving Repr, DecidableEq

/-- `POST /request-password-reset` (source lines 253-276): 404 when no
user has the email; otherwise signs `{ userId }` with the same
process-wide `JWT_SECRET` used for sessions, with `expiresIn: '15m'`
(900 seconds), INSERTs a reset row expiring at `NOW() + 15 MINUTE`,
and returns the token in the response body. -/
def requestPasswordReset (db : DB) (email secret : String) (now : Nat) :
    ResetRequestResult :=
  match db.users.find? (fun u => u.email == email) with
  | none => ⟨db, 404, none⟩
  | some u =>
      let tok := Token.jwt (jwtSign u.id secret now 900)
      ⟨{ db with
          resetTokens := db.resetTokens ++
            [⟨db.nextTokenId, u.id, tok, now + 900, false⟩],
          nextTokenId := db.nextTokenId + 1 },
        200, some tok⟩

/-- Row predicate of the SELECT shared by `/verify-reset-token` and
`/reset-password`: `token = ? AND used = FALSE AND expires_at > NOW()`. -/
def resetTokenLive (tok : Token) (now : Nat) (r : ResetTokenRow) : Bool :=
  decide (r.token = tok) && !r.used && decide (now < r.expiresAt)

/-- Response of `POST /verify-reset-token`. -/
structure VerifyTokenResult where
  status : Nat
  valid : Bool
  userId : Option Nat
deriving Repr, DecidableEq

/-- `POST /verify-reset-token` (source lines 278-294): SELECT rows with
matching token, `used = FALSE`, `expires_at > NOW()`; empty result →
400 "Invalid or expired token"; otherwise `{ valid: true, userId }` of
the first row. -/
def verifyResetToken (db : DB) (now : Nat) (tok : Token) : VerifyTokenResult :=
  match db.resetTokens.find? (resetTokenLive tok now) with
  | none => ⟨400, false, none⟩
  | some r => ⟨200, true, some r.userId⟩

/-- `POST /reset-password` (source lines 296-325): the same liveness
SELECT (400 when empty); then **two separate auto-committed
`pool.query` statements** — UPDATE the user's password hash, then
UPDATE the token row to `used = TRUE` — with no surrounding
transaction.  A thrown statement reaches the catch-all (500) with
every earlier statement already durably committed.  The flags
`updatePasswordFails` / `markUsedFails` model the respective statement
throwing (e.g. a dropped pool connection); `false, false` is the
failure-free run. -/
def resetPassword (db : DB) (now : Nat) (tok : Token) (newPassword : String)
    (updatePasswordFails markUsedFails : Bool) : EndpointResult :=
  match db.resetTokens.find? (resetTokenLive tok now) with
  | none => ⟨db, 400, "Invalid or expired token"⟩
  | some r =>
      if updatePasswordFails then ⟨db, 500, "Query error"⟩
      else
        let db1 := { db with
          users := db.users.map (fun u =>
            if u.id == r.userId then { u with password := bcryptHash newPassword } else u) }
        if markUsedFails then ⟨db1, 500, "Query error"⟩
        else
          let db2 := { db1 with
            resetTokens := db1.resetTokens.map (fun t =>
              if decide (t.token = tok) then { t with used := true } else t) }
          ⟨db2, 200, "Password updated successfully"⟩

/-- The email-shape test of `POST /whitelist`: a character accepted by
the regex character class `[^\s@]`. -/
def emailCharOk (c : Char) : Bool :=
  !c.isWhitespace && c != '@'

/-- The regex `/^[^\s@]+@[^\s@]+\.[^\s@]+$/` of `POST /whitelist`: a
nonempty run of non-whitespace non-`@` characters, one `@`, then a
tail that contains no whitespace or `@` and has a `.` that is neither
its first nor its last character. -/
def validEmailFormat (email : String) : Bool :=
  let cs := email.data
  let a := cs.takeWhile (fun c => c != '@')
  match cs.dropWhile (fun c => c != '@') with
  | [] => false
  | _ :: b =>
      !a.isEmpty && a.all emailCharOk && b.all emailCharOk &&
        ((b.drop 1).dropLast.contains '.')

/-- `POST /whitelist` body (source lines 328-352), entered after
`authenticate`: 400 on a malformed email; the `whitelist_emails.email`
UNIQUE constraint makes the INSERT throw `ER_DUP_ENTRY`, which the
handler maps to 409; otherwise 201. -/
def addWhitelistEmail (db : DB) (now : Nat) (email : String) : EndpointResult :=
  if !validEmailFormat email then ⟨db, 400, "Invalid email format"⟩
  else if db.whitelist.any (fun w => w.email == email) then
    ⟨db, 409, "Email already exists in whitelist"⟩
  else
    ⟨{ db with
        whitelist := db.whitelist ++ [⟨db.nextWhitelistId, email, now⟩],
        nextWhitelistId := db.nextWhitelistId + 1 },
      201, "Email added to whitelist"⟩

/-- `DELETE /whitelist/:email` (source lines 365-385), including its
`authenticate` middleware: auth failure responses pass through;
otherwise the row is DELETEd, 404 when zero rows were affected. -/
def deleteWhitelistEmail (db : DB) (authHeader : Option Token) (secret : String)
    (now : Nat) (email : String) : EndpointResult :=
  match authenticate authHeader secret now with
  | Except.error (s, m) => ⟨db, s, m⟩
  | Except.ok _ =>
      let affected := (db.whitelist.filter (fun w => w.email == email)).length
      if affected == 0 then ⟨db, 404, "Email not found in whitelist"⟩
      else
        ⟨{ db with whitelist := db.whitelist.filter (fun w => w.email != email) },
          200, "Email removed from whitelist"⟩

/-- The HTTP status this application itself uses for a uniqueness
`Conflict` (the `ER_DUP_ENTRY` branch of `POST /whitelist`). -/
def conflictStatus : Nat := 409

/-- An empty database with fresh AUTO_INCREMENT counters. -/
def emptyDB : DB := ⟨[], [], [], [], 1, 1, 1, 1⟩

end SgAdmin

namespace SgAdmin

/-- Fixture for C1: one registered file whose physical blob is absent
from the (empty) file store. -/
def c1DB : DB := { emptyDB with files := [⟨1, "a.txt", "uploads/blob1"⟩], nextFileId := 2 }

/-- Fixture for C2/C8: one user and one reset token. -/
def c2Tok : Token := Token.jwt (jwtSign 1 "secret" 100 900)

/-- Fixture database holding user 1 with password "oldpw" and a live
reset token for that user expiring at time 1000. -/
def c2DB : DB := { emptyDB with
  users := [⟨1, "a@x.com", bcryptHash "oldpw"⟩],
  resetTokens := [⟨1, 1, c2Tok, 1000, false⟩],
  nextUserId := 2, nextTokenId := 2 }

/-- Fixture for C3: the state after a first successful registration of
"a@x.com". -/
def c3Run1 : EndpointResult := registerUser emptyDB "a@x.com" "pw1"

/-- Fixture for C5: one registered file named "a.txt", and a valid
session token for the upload request. -/
def c5DB : DB := { emptyDB with files := [⟨1, "a.txt", "uploads/aaa"⟩], nextFileId := 2 }

/-- Valid bearer header used by the C5 fixtures. -/
def c5Auth : Option Token := some (Token.jwt (jwtSign 7 "secret" 0 3600))

/-- Fixture for C6/C9: one registered user "a@x.com"/"pw", not
whitelisted. -/
def c6DB : DB := { emptyDB with users := [⟨1, "a@x.com", bcryptHash "pw"⟩], nextUserId := 2 }

/-- C1 counterexample: deleting file 1 of `c1DB` while its blob
"uploads/blob1" is missing (the unlink fails with ENOENT) removes the
database record but the response reports `physicalFileDeleted = true`,
not the `false`-equivalent the claim requires: the reported flag does
not reflect whether the unlink succeeded. -/
theorem C1_claim_counterexample :
    fsUnlink [] "uploads/blob1" = Except.error "ENOENT" ∧
    deleteFile c1DB [] 1 = ⟨{ c1DB with files := [] }, [], 200, some ⟨true, true, 1⟩⟩ ∧
    (deleteFile c1DB [] 1).details ≠ some ⟨true, false, 1⟩ := by
  refine ⟨rfl, rfl, by decide⟩

/-- C1 amended: when the record exists but its blob cannot be
unlinked, the handler still removes the database record, leaves the
file store unchanged, and responds 200 with `dbRecordDeleted` equal to
`affectedRows == 1` but `physicalFileDeleted` hardcoded to `true`
regardless of the unlink failure. -/
theorem C1_deleteFile_missing_blob (db : DB) (fs : List String) (fileId : Nat)
    (f : FileRow) (hfind : db.files.find? (fun g => g.id == fileId) = some f)
    (hmiss : fs.contains f.path = false) :
    deleteFile db fs fileId =
      ⟨{ db with files := db.files.filter (fun g => g.id != fileId) }, fs, 200,
        some ⟨(db.files.filter (fun g => g.id == fileId)).length == 1, true, fileId⟩⟩ := by
  have hm : f.path ∉ fs := by simpa using hmiss
  unfold deleteFile
  rw [hfind]
  simp [fsUnlink, hm]

/-- C1 witness: the amended theorem applied to the `c1DB` fixture. -/
theorem C1_deleteFile_missing_blob_witness :
    deleteFile c1DB [] 1 = ⟨{ c1DB with files := [] }, [], 200, some ⟨true, true, 1⟩⟩ := by
  have h := C1_deleteFile_missing_blob c1DB [] 1 ⟨1, "a.txt", "uploads/blob1"⟩ rfl rfl
  simpa using h

/-- C2 counterexample: with the live token of `c2DB`, a run in which
the second statement (marking the token used) throws returns 500, yet
the first statement's effect — the new password hash — has already
been committed, while `used` remains `false`: the two halves are not
all-or-nothing. -/
theorem C2_claim_counterexample :
    (resetPassword c2DB 500 c2Tok "newpw" false true).status = 500 ∧
    (resetPassword c2DB 500 c2Tok "newpw" false true).db.users =
      [⟨1, "a@x.com", bcryptHash "newpw"⟩] ∧
    (resetPassword c2DB 500 c2Tok "newpw" false true).db.resetTokens =
      [⟨1, 1, c2Tok, 1000, false⟩] := by
  refine ⟨rfl, rfl, rfl⟩

/-- C2 amended: the two updates are separate auto-committed
statements.  If the password UPDATE throws, nothing persists (500); if
marking the token used throws after the password UPDATE succeeded, the
new password hash persists while the token stays unused (500); only
the failure-free run updates both (200). -/
theorem C2_resetPassword_not_atomic (db : DB) (now : Nat) (tok : Token)
    (newPassword : String) (r : ResetTokenRow)
    (hfind : db.resetTokens.find? (resetTokenLive tok now) = some r) :
    resetPassword db now tok newPassword true false = ⟨db, 500, "Query error"⟩ ∧
    resetPassword db now tok newPassword false true =
      ⟨{ db with users := db.users.map (fun u =>
          if u.id == r.userId then { u with password := bcryptHash newPassword } else u) },
        500, "Query error"⟩ ∧
    resetPassword db now tok newPassword false false =
      ⟨{ db with
          users := db.users.map (fun u =>
            if u.id == r.userId then { u with password := bcryptHash newPassword } else u),
          resetTokens := db.resetTokens.map (fun t =>
            if decide (t.token = tok) then { t with used := true } else t) },
        200, "Password updated successfully"⟩ := by
  unfold resetPassword
  rw [hfind]
  exact ⟨rfl, rfl, rfl⟩

/-- C2 witness: the amended theorem applied to the `c2DB` fixture. -/
theorem C2_resetPassword_not_atomic_witness :
    resetPassword c2DB 500 c2Tok "newpw" true false = ⟨c2DB, 500, "Query error"⟩ :=
  (C2_resetPassword_not_atomic c2DB 500 c2Tok "newpw" ⟨1, 1, c2Tok, 1000, false⟩ rfl).1

/-- C3 counterexample: registering "a@x.com" twice leaves the first
user untouched and creates no second row, but the second call fails
with status 500 (the driver's duplicate-entry error surfaced by the
generic catch), not the 409 this application itself uses for a
uniqueness `Conflict` in `POST /whitelist`. -/
theorem C3_claim_counterexample :
    c3Run1.status = 201 ∧
    registerUser c3Run1.db "a@x.com" "pw2" =
      ⟨c3Run1.db, 500, "Duplicate entry for key users.email"⟩ ∧
    (registerUser c3Run1.db "a@x.com" "pw2").status ≠ conflictStatus := by
  refine ⟨rfl, rfl, by decide⟩

/-- C3 amended: when a user with the email already exists, a second
registration fails with status 500 (duplicate-key error through the
catch-all, not a 409 Conflict) and the database is unchanged: no new
user is created and every stored password hash is untouched. -/
theorem C3_register_duplicate (db : DB) (email p2 : String)
    (hdup : db.users.any (fun u => u.email == email) = true) :
    registerUser db email p2 = ⟨db, 500, "Duplicate entry for key users.email"⟩ := by
  unfold registerUser
  rw [hdup]
  rfl

/-- C3 witness: the amended theorem applied after a first successful
registration. -/
theorem C3_register_duplicate_witness :
    registerUser c3Run1.db "a@x.com" "pw2" =
      ⟨c3Run1.db, 500, "Duplicate entry for key users.email"⟩ :=
  C3_register_duplicate c3Run1.db "a@x.com" "pw2" rfl

/-- C4 counterexample: an absent token is rejected with status 401
"Access denied" while a malformed token and an expired token are both
rejected with status 400 "Invalid token" — two distinct codes, so the
failure cases are not a single undifferentiated error kind: a caller
can distinguish an absent token from the others. -/
theorem C4_claim_counterexample :
    authenticate none "secret" 0 = Except.error (401, "Access denied") ∧
    authenticate (some (Token.malformed "zz")) "secret" 0 =
      Except.error (400, "Invalid token") ∧
    authenticate (some (Token.jwt (jwtSign 1 "secret" 0 900))) "secret" 900 =
      Except.error (400, "Invalid token") ∧
    (401 : Nat) ≠ 400 := by
  refine ⟨rfl, rfl, rfl, by decide⟩

/-- C4 amended: an absent token fails with 401 "Access denied"; every
token on which `jwt.verify` throws — malformed, wrong signature, or
expired — fails with the identical 400 "Invalid token" response, so
those three cases are mutually indistinguishable but distinguishable
from absence. -/
theorem C4_authenticate_errors (secret : String) (now : Nat) :
    authenticate none secret now = Except.error (401, "Access denied") ∧
    ∀ tok : Token, jwtVerify tok secret now = none →
      authenticate (some tok) secret now = Except.error (400, "Invalid token") := by
  refine ⟨rfl, fun tok h => ?_⟩
  simp [authenticate, h]

/-- C4 witness: the amended theorem applied to a malformed token. -/
theorem C4_authenticate_errors_witness :
    authenticate (some (Token.malformed "zz")) "secret" 5 =
      Except.error (400, "Invalid token") :=
  (C4_authenticate_errors "secret" 5).2 (Token.malformed "zz") rfl

/-- C5 counterexample: an authenticated upload of a second file named
"a.txt" is rejected with no new FileRecord, but with status 400, not
the 409 this application itself uses for a uniqueness `Conflict`. -/
theorem C5_claim_counterexample :
    uploadFile c5DB c5Auth "secret" 10 (some ("a.txt", "uploads/bbb")) =
      ⟨c5DB, 400, "File with this name already exists", none⟩ ∧
    (uploadFile c5DB c5Auth "secret" 10 (some ("a.txt", "uploads/bbb"))).status ≠
      conflictStatus := by
  refine ⟨rfl, by decide⟩

/-- C5 amended: for an authenticated upload whose filename already has
a FileRecord, the handler fails with status 400 "File with this name
already exists" (not a 409 Conflict) and the database is unchanged —
no new FileRecord is created, so filename uniqueness is preserved. -/
theorem C5_upload_duplicate (db : DB) (authHeader : Option Token) (secret : String)
    (now : Nat) (origname path : String) (uid : Nat)
    (hauth : authenticate authHeader secret now = Except.ok uid)
    (hdup : db.files.any (fun f => f.filename == origname) = true) :
    uploadFile db authHeader secret now (some (origname, path)) =
      ⟨db, 400, "File with this name already exists", none⟩ := by
  unfold uploadFile
  rw [hauth]
  simp [hdup]

/-- C5 witness: the amended theorem applied to the `c5DB` fixture. -/
theorem C5_upload_duplicate_witness :
    uploadFile c5DB c5Auth "secret" 10 (some ("a.txt", "uploads/bbb")) =
      ⟨c5DB, 400, "File with this name already exists", none⟩ :=
  C5_upload_duplicate c5DB c5Auth "secret" 10 "a.txt" "uploads/bbb" 7 rfl rfl

end SgAdmin

namespace SgAdmin

/-- C6: login checks the whitelist first: a non-whitelisted email gets
403 with the whitelist-specific message regardless of the users table
and password (even a registered user with the correct password); for a
whitelisted email, an absent user or a password mismatch both get the
single generic 401 "Invalid credentials", and a matching password
yields a 1-hour session token for the user's id. -/
theorem C6_login_whitelist_first (db : DB) (email password secret : String) (now : Nat) :
    ((db.whitelist.any (fun w => w.email == email)) = false →
      login db email password secret now =
        ⟨403, "Access denied. Your email is not whitelisted.", none⟩) ∧
    ((db.whitelist.any (fun w => w.email == email)) = true →
      (db.users.find? (fun u => u.email == email) = none →
        login db email password secret now = ⟨401, "Invalid credentials", none⟩) ∧
      (∀ u : UserRow, db.users.find? (fun v => v.email == email) = some u →
        (bcryptCompare password u.password = false →
          login db email password secret now = ⟨401, "Invalid credentials", none⟩) ∧
        (bcryptCompare password u.password = true →
          login db email password secret now =
            ⟨200, "", some (Token.jwt (jwtSign u.id secret now 3600))⟩))) := by
  refine ⟨fun hw => ?_, fun hw => ⟨fun hnone => ?_, fun u hu => ⟨fun hc => ?_, fun hc => ?_⟩⟩⟩
  · simp [login, hw]
  · simp [login, hw, hnone]
  · simp [login, hw, hu, hc]
  · simp [login, hw, hu, hc]

/-- C6 witness: user "a@x.com" exists in `c6DB` with the correct
password "pw", yet login returns 403 because the email is not
whitelisted. -/
theorem C6_login_whitelist_first_witness :
    login c6DB "a@x.com" "pw" "secret" 0 =
      ⟨403, "Access denied. Your email is not whitelisted.", none⟩ :=
  (C6_login_whitelist_first c6DB "a@x.com" "pw" "secret" 0).1 rfl

/-- Fixture for C7: user 1 with two outstanding reset tokens. -/
def c7DB : DB := { emptyDB with
  users := [⟨1, "a@x.com", bcryptHash "pw"⟩],
  resetTokens := [⟨1, 1, Token.malformed "t1", 1000, false⟩,
                  ⟨2, 1, Token.malformed "t2", 900, true⟩],
  nextUserId := 2, nextTokenId := 3 }

/-- Interference used by the C7 witness: a concurrently committed
transaction that deletes every user row between the handler's SELECT
and its DELETEs. -/
def c7Wipe : DB → DB := fun d => { d with users := [] }

/-- C7: the `DELETE /user` transaction is all-or-nothing.  On password
mismatch (or an absent user row at the SELECT) it rolls back with 401
and the unit changes nothing beyond the modelled concurrent
interference; on match, if the user row is still present when the
DELETE runs, the commit removes all of the user's reset tokens and the
user row as one unit; if the user-row DELETE affects zero rows, the
whole unit rolls back with 404 and zero tokens are removed. -/
theorem C7_deleteAccount_atomic (db : DB) (interfere : DB → DB) (userId : Nat)
    (password : String) :
    ((∀ u : UserRow, db.users.find? (fun v => v.id == userId) = some u →
        bcryptCompare password u.password = false) →
      deleteAccount db interfere userId password =
        ⟨interfere db, 401, "Invalid password"⟩) ∧
    (∀ u : UserRow, db.users.find? (fun v => v.id == userId) = some u →
      bcryptCompare password u.password = true →
      ((((interfere db).users.filter (fun v => v.id == userId)).length = 0 →
        deleteAccount db interfere userId password =
          ⟨interfere db, 404, "User not found"⟩) ∧
      (((interfere db).users.filter (fun v => v.id == userId)).length ≠ 0 →
        deleteAccount db interfere userId password =
          ⟨{ interfere db with
              resetTokens := (interfere db).resetTokens.filter (fun t => t.userId != userId),
              users := (interfere db).users.filter (fun v => v.id != userId) },
            200, "User account deleted successfully"⟩))) := by
  cases hfind : db.users.find? (fun v => v.id == userId) with
  | none =>
      refine ⟨fun _ => ?_, fun u hu => by simp [hfind] at hu⟩
      simp [deleteAccount, hfind]
  | some u =>
      refine ⟨fun hmis => ?_, fun u' hu' hcmp => ?_⟩
      · have hc := hmis u rfl
        simp [deleteAccount, hfind, hc]
      · obtain rfl : u' = u := (Option.some_inj.mp hu').symm
        refine ⟨fun hzero => ?_, fun hnz => ?_⟩
        · simp [deleteAccount, hfind, hcmp, hzero]
        · have hz : (((interfere db).users.filter (fun v => v.id == userId)).length == 0) = false := by
            simpa using hnz
          simp [deleteAccount, hfind, hcmp, hz]

/-- C7 witness: with `c7Wipe` deleting the user concurrently, the unit
rolls back: both reset tokens of user 1 survive and 404 is reported. -/
theorem C7_deleteAccount_atomic_witness :
    deleteAccount c7DB c7Wipe 1 "pw" = ⟨c7Wipe c7DB, 404, "User not found"⟩ :=
  (((C7_deleteAccount_atomic c7DB c7Wipe 1 "pw").2
      ⟨1, "a@x.com", bcryptHash "pw"⟩ rfl rfl).1) rfl

end SgAdmin

namespace SgAdmin

/-- The SQL row predicate of the reset-token SELECT unpacked into a
proposition: matching token value, `used = FALSE`, `expires_at > NOW()`. -/
theorem resetTokenLive_iff (tok : Token) (now : Nat) (r : ResetTokenRow) :
    resetTokenLive tok now r = true ↔
      (r.token = tok ∧ r.used = false ∧ now < r.expiresAt) := by
  simp [resetTokenLive, Bool.and_eq_true, decide_eq_true_eq, Bool.not_eq_true',
    and_assoc]

/-- Fixture for C8: user 1 with a reset token expired at time 400,
never used. -/
def c8DB : DB := { emptyDB with
  users := [⟨1, "a@x.com", bcryptHash "pw"⟩],
  resetTokens := [⟨1, 1, Token.malformed "tk", 400, false⟩],
  nextUserId := 2, nextTokenId := 2 }

/-- C8: reset-token validation succeeds (status 200) exactly when some
row has a matching token value, `used = false`, and `expiresAt > now`;
on success the response carries the first such row's userId; in every
other case — absent, used, or expired — the single undifferentiated
400 "Invalid or expired token" response is returned; in particular if
every row carrying the token value is expired the call fails
regardless of the `used` flags. -/
theorem C8_validate_iff (db : DB) (now : Nat) (tok : Token) :
    ((verifyResetToken db now tok).status = 200 ↔
      ∃ r ∈ db.resetTokens, r.token = tok ∧ r.used = false ∧ now < r.expiresAt) ∧
    (∀ r : ResetTokenRow, db.resetTokens.find? (resetTokenLive tok now) = some r →
      verifyResetToken db now tok = ⟨200, true, some r.userId⟩) ∧
    (db.resetTokens.find? (resetTokenLive tok now) = none →
      verifyResetToken db now tok = ⟨400, false, none⟩) ∧
    ((∀ r ∈ db.resetTokens, r.token = tok → r.expiresAt ≤ now) →
      verifyResetToken db now tok = ⟨400, false, none⟩) := by
  have hnone : ∀ h : db.resetTokens.find? (resetTokenLive tok now) = none,
      verifyResetToken db now tok = ⟨400, false, none⟩ := by
    intro h
    unfold verifyResetToken
    rw [h]
  have hsome : ∀ r : ResetTokenRow,
      db.resetTokens.find? (resetTokenLive tok now) = some r →
      verifyResetToken db now tok = ⟨200, true, some r.userId⟩ := by
    intro r h
    unfold verifyResetToken
    rw [h]
  refine ⟨?_, hsome, hnone, ?_⟩
  · constructor
    · intro hst
      cases hfind : db.resetTokens.find? (resetTokenLive tok now) with
      | none => rw [hnone hfind] at hst; exact absurd hst (by decide)
      | some r =>
          refine ⟨r, List.mem_of_find?_eq_some hfind, ?_⟩
          exact (resetTokenLive_iff tok now r).mp (List.find?_some hfind)
    · rintro ⟨r, hmem, hprops⟩
      have hs : (db.resetTokens.find? (resetTokenLive tok now)).isSome := by
        rw [List.find?_isSome]
        exact ⟨r, hmem, (resetTokenLive_iff tok now r).mpr hprops⟩
      cases hfind : db.resetTokens.find? (resetTokenLive tok now) with
      | none => rw [hfind] at hs; exact absurd hs (by decide)
      | some r' => rw [hsome r' hfind]
  · intro hall
    apply hnone
    rw [List.find?_eq_none]
    intro r hmem hlive
    obtain ⟨htok, _, hlt⟩ := (resetTokenLive_iff tok now r).mp hlive
    exact absurd (hall r hmem htok) (by omega)

/-- C8 witness: the expired-but-unused token of `c8DB` presented at
time 500 is rejected with the undifferentiated 400 response. -/
theorem C8_validate_iff_witness :
    verifyResetToken c8DB 500 (Token.malformed "tk") = ⟨400, false, none⟩ :=
  (C8_validate_iff c8DB 500 (Token.malformed "tk")).2.2.2 (by decide)

/-- C9: a successful `requestPasswordReset` signs `{ userId }` with
the same process-wide secret used for sessions, so presenting the
returned reset token as the bearer credential within its 900-second
lifetime passes the `authenticate` middleware with `req.userId` equal
to that user's id. -/
theorem C9_reset_token_is_session (db : DB) (email secret : String)
    (now now' : Nat) (dbOut : DB) (tok : Token)
    (hreq : requestPasswordReset db email secret now = ⟨dbOut, 200, some tok⟩)
    (hnow : now' < now + 900) :
    ∃ u : UserRow, db.users.find? (fun v => v.email == email) = some u ∧
      authenticate (some tok) secret now' = Except.ok u.id := by
  cases hfind : db.users.find? (fun v => v.email == email) with
  | none =>
      unfold requestPasswordReset at hreq
      rw [hfind] at hreq
      cases hreq
  | some u =>
      refine ⟨u, rfl, ?_⟩
      unfold requestPasswordReset at hreq
      rw [hfind] at hreq
      obtain rfl : tok = Token.jwt (jwtSign u.id secret now 900) := by
        cases hreq; rfl
      simp [authenticate, jwtVerify, jwtSign, hnow]

/-- Fixture for C9's witness: the state and token produced by
requesting a reset for "a@x.com" of `c6DB` at time 0. -/
def c9Out : ResetRequestResult := requestPasswordReset c6DB "a@x.com" "secret" 0

/-- C9 witness: the reset token issued for user 1 of `c6DB` at time 0
passes `authenticate` at time 899 with userId 1. -/
theorem C9_reset_token_is_session_witness :
    ∃ u : UserRow, c6DB.users.find? (fun v => v.email == "a@x.com") = some u ∧
      authenticate (some (Token.jwt (jwtSign 1 "secret" 0 900))) "secret" 899 =
        Except.ok u.id :=
  C9_reset_token_is_session c6DB "a@x.com" "secret" 0 899 c9Out.db
    (Token.jwt (jwtSign 1 "secret" 0 900)) rfl (by decide)

/-- Statuses reachable from `deleteWhitelistEmail` once `authenticate`
succeeded: 404 or 200, never an authentication-failure status. -/
theorem deleteWhitelistEmail_authOk_status (db : DB) (authHeader : Option Token)
    (secret : String) (now : Nat) (email : String) (uid : Nat)
    (h : authenticate authHeader secret now = Except.ok uid) :
    (deleteWhitelistEmail db authHeader secret now email).status = 404 ∨
    (deleteWhitelistEmail db authHeader secret now email).status = 200 := by
  unfold deleteWhitelistEmail
  rw [h]
  dsimp only
  split
  · exact Or.inl rfl
  · exact Or.inr rfl

/-- When `authenticate` fails, `deleteWhitelistEmail` passes the
middleware's status and message through and leaves the state alone. -/
theorem deleteWhitelistEmail_authError (db : DB) (authHeader : Option Token)
    (secret : String) (now : Nat) (email : String) (s : Nat) (m : String)
    (h : authenticate authHeader secret now = Except.error (s, m)) :
    deleteWhitelistEmail db authHeader secret now email = ⟨db, s, m⟩ := by
  unfold deleteWhitelistEmail
  rw [h]

/-- C10: session-token verification reads no store state.  For any two
database states — e.g. before and after the user's email is removed
from the whitelist, or the account deleted — a protected operation
(`DELETE /whitelist/:email`) reports an authentication failure (401 or
400) in one state exactly when it does in the other; and a session
token signed with the secret stays accepted against every database
state until its one-hour expiry. -/
theorem C10_verify_ignores_store (db1 db2 : DB) (authHeader : Option Token)
    (secret : String) (now : Nat) (email1 email2 : String) :
    (((deleteWhitelistEmail db1 authHeader secret now email1).status = 401 ↔
      (deleteWhitelistEmail db2 authHeader secret now email2).status = 401) ∧
     ((deleteWhitelistEmail db1 authHeader secret now email1).status = 400 ↔
      (deleteWhitelistEmail db2 authHeader secret now email2).status = 400)) ∧
    (∀ uid iat : Nat, authHeader = some (Token.jwt (jwtSign uid secret iat 3600)) →
      now < iat + 3600 →
      authenticate authHeader secret now = Except.ok uid ∧
      (deleteWhitelistEmail db1 authHeader secret now email1).status ≠ 401 ∧
      (deleteWhitelistEmail db1 authHeader secret now email1).status ≠ 400) := by
  have hok : ∀ uid iat : Nat,
      authHeader = some (Token.jwt (jwtSign uid secret iat 3600)) →
      now < iat + 3600 → authenticate authHeader secret now = Except.ok uid := by
    rintro uid iat rfl hlt
    simp [authenticate, jwtVerify, jwtSign, hlt]
  cases hauth : authenticate authHeader secret now with
  | error e =>
      obtain ⟨s, m⟩ := e
      rw [deleteWhitelistEmail_authError db1 authHeader secret now email1 s m hauth,
        deleteWhitelistEmail_authError db2 authHeader secret now email2 s m hauth]
      refine ⟨⟨Iff.rfl, Iff.rfl⟩, fun uid iat heq hlt => ?_⟩
      rw [hok uid iat heq hlt] at hauth
      cases hauth
  | ok uid =>
      have h1 := deleteWhitelistEmail_authOk_status db1 authHeader secret now email1 uid hauth
      have h2 := deleteWhitelistEmail_authOk_status db2 authHeader secret now email2 uid hauth
      refine ⟨⟨?_, ?_⟩, fun uid' iat heq hlt => ⟨?_, ?_, ?_⟩⟩
      · constructor <;> intro h <;>
          [rcases h1 with h1 | h1; rcases h2 with h2 | h2] <;> omega
      · constructor <;> intro h <;>
          [rcases h1 with h1 | h1; rcases h2 with h2 | h2] <;> omega
      · have h3 := hok uid' iat heq hlt
        rw [hauth] at h3
        exact h3
      · rcases h1 with h1 | h1 <;> omega
      · rcases h1 with h1 | h1 <;> omega

/-- C10 witness: a session token issued at time 0 for user 1 still
authenticates at time 10 against the empty database — user deleted,
whitelist emptied — so the protected operation proceeds past the
middleware (and then 404s on the missing whitelist row, not 401/400). -/
theorem C10_verify_ignores_store_witness :
    authenticate (some (Token.jwt (jwtSign 1 "secret" 0 3600))) "secret" 10 =
      Except.ok 1 ∧
    (deleteWhitelistEmail emptyDB (some (Token.jwt (jwtSign 1 "secret" 0 3600)))
      "secret" 10 "a@x.com").status ≠ 401 ∧
    (deleteWhitelistEmail emptyDB (some (Token.jwt (jwtSign 1 "secret" 0 3600)))
      "secret" 10 "a@x.com").status ≠ 400 :=
  (C10_verify_ignores_store emptyDB emptyDB
    (some (Token.jwt (jwtSign 1 "secret" 0 3600))) "secret" 10 "a@x.com" "a@x.com").2
    1 0 rfl (by decide)

end SgAdmin
